import Mathlib

/-!
Shallow embedding of the AMM dispatcher of `src/src/amm/mod.rs` together with
models of the three wrapped engines (constant-product pool, concentrated
liquidity pool, ERC-4626 vault). The dispatcher itself is translated directly
from the source; the engine bodies are not part of the provided sources, so
they are modelled from the specification, as marked on each definition.

Machine integers (H160, H256, U256) are modelled as `Nat`; the code only uses
their equality and arithmetic, with 256-bit truncation written explicitly as
`% word256` where a value is stored into a 32-byte storage word. Stateful Rust
methods taking `&mut self` are modelled by explicit state passing: a method
returning `T` on receiver `α` becomes a function `α → ... → T × α`. The
network middleware is modelled as a point-in-time storage read keyed by an
optional block height, which can fail (`Option`), matching the abstract
network-handle capability of the spec.
-/

/-- 160-bit account address (ethers `H160`); only equality is used. -/
abbrev H160 := Nat

/-- 256-bit word (ethers `H256`), used for storage keys/values and topics. -/
abbrev H256 := Nat

/-- 256-bit unsigned integer (ethers `U256`). -/
abbrev U256 := Nat

/-- Ordered 32-byte key to value mapping (`BTreeMap of H256 to H256`),
modelled as an association list consulted through `List.lookup`. -/
abbrev StorageDiff := List (H256 × H256)

/-- One truncation modulus for a 32-byte storage word. -/
def word256 : Nat := 2 ^ 256

/-- Truncation modulus for a packed 112-bit reserve field. -/
def word112 : Nat := 2 ^ 112

/-- Modelled from the spec: the consumed network-handle capability —
point-in-time state reads keyed by an optional block height, returning a
decodable payload (here: the contract's pricing-relevant storage slots), with
`none` standing for a network/decode failure. -/
structure Chain where
  storage_at : H160 → Option Nat → Option StorageDiff

/-- Error kind `AMMError`: network/decode failures raised by `sync` and
`populate_data` (crate `errors` module, not in the provided sources). -/
inductive AMMError
  | middlewareError (code : Nat)
deriving DecidableEq

/-- Error kind `ArithmeticError`: zero denominator or unrepresentable
magnitude in `calculate_price`. -/
inductive ArithmeticError
  | zeroDenominator
deriving DecidableEq

/-- Error kind `EventLogError`: unrecognized or malformed event payloads in
`sync_from_log`. -/
inductive EventLogError
  | invalidEventSignature
  | malformedLog
deriving DecidableEq

/-- Error kind `SwapSimulationError`: zero liquidity or exhaustion of the
known tick range in `simulate_swap(_mut)` and `gradient`. -/
inductive SwapSimulationError
  | zeroLiquidity
  | tickBoundsExceeded
deriving DecidableEq

/-- A decoded event record (`ethers Log`): its leading 32-byte topic and the
decoded numeric payload fields. -/
structure Log where
  topic0 : H256
  data : List Nat
deriving DecidableEq

/-- Topic hash of the constant-product Sync event (stand-in constant for the
32-byte keccak topic). -/
def v2SyncTopic : H256 := 1

/-- Topic hash of the concentrated-liquidity Swap event. -/
def v3SwapTopic : H256 := 2

/-- Topic hash of the concentrated-liquidity Mint event. -/
def v3MintTopic : H256 := 3

/-- Topic hash of the concentrated-liquidity Burn event. -/
def v3BurnTopic : H256 := 4

/-- Topic hash of the vault Deposit event. -/
def vaultDepositTopic : H256 := 5

/-- Topic hash of the vault Withdraw event. -/
def vaultWithdrawTopic : H256 := 6

/-- Storage slot holding the packed reserve pair of a constant-product pool. -/
def v2ReserveSlot : H256 := 8

/-- Storage slot holding the current sqrt-price of a concentrated-liquidity
pool. -/
def v3Slot0 : H256 := 0

/-- Storage slot holding the active liquidity of a concentrated-liquidity
pool. -/
def v3LiquiditySlot : H256 := 4

/-- Storage slot holding the total share supply of a vault. -/
def vaultSharesSlot : H256 := 2

/-- Storage slot holding the total managed assets of a vault. -/
def vaultAssetsSlot : H256 := 3

/-- Modelled from the spec: `ConstantProductPool` (`UniswapV2Pool`) data —
address; the two token addresses; the two reserves; fee in parts per 10000. -/
structure UniswapV2Pool where
  address : H160
  token_a : H160
  token_b : H160
  reserve_0 : U256
  reserve_1 : U256
  fee : Nat
deriving DecidableEq

/-- Modelled from the spec: the fixed two-token set of a constant-product
pool. -/
def UniswapV2Pool.tokens (pool : UniswapV2Pool) : List H160 :=
  [pool.token_a, pool.token_b]

/-- Modelled from the spec: the event topics the constant-product engine
needs subscribed (reserve snapshots arrive in Sync events). -/
def UniswapV2Pool.sync_on_event_signatures (_pool : UniswapV2Pool) : List H256 :=
  [v2SyncTopic]

/-- Modelled from the spec: exact-input constant-product output,
`floor(amount_in·(1−fee)·reserve_out / (reserve_in + amount_in·(1−fee)))`
with the fee in parts per 10000. -/
def UniswapV2Pool.get_amount_out (pool : UniswapV2Pool)
    (amount_in reserve_in reserve_out : U256) : U256 :=
  amount_in * (10000 - pool.fee) * reserve_out /
    (reserve_in * 10000 + amount_in * (10000 - pool.fee))

/-- Modelled from the spec: pure hypothetical exact-input swap projection for
a constant-product pool, direction chosen by `token_in`. -/
def UniswapV2Pool.simulate_swap (pool : UniswapV2Pool) (token_in : H160)
    (amount_in : U256) : Except SwapSimulationError U256 :=
  if token_in == pool.token_a then
    .ok (pool.get_amount_out amount_in pool.reserve_0 pool.reserve_1)
  else
    .ok (pool.get_amount_out amount_in pool.reserve_1 pool.reserve_0)

/-- Modelled from the spec: same swap computation, additionally committing
the post-swap reserves to the pool. -/
def UniswapV2Pool.simulate_swap_mut (pool : UniswapV2Pool) (token_in : H160)
    (amount_in : U256) : Except SwapSimulationError U256 × UniswapV2Pool :=
  if token_in == pool.token_a then
    let out := pool.get_amount_out amount_in pool.reserve_0 pool.reserve_1
    (.ok out, { pool with reserve_0 := pool.reserve_0 + amount_in,
                          reserve_1 := pool.reserve_1 - out })
  else
    let out := pool.get_amount_out amount_in pool.reserve_1 pool.reserve_0
    (.ok out, { pool with reserve_1 := pool.reserve_1 + amount_in,
                          reserve_0 := pool.reserve_0 - out })

/-- Packing of the two 112-bit reserves into one 32-byte storage word. -/
def packReserves (r0 r1 : Nat) : Nat :=
  r0 % word112 + r1 % word112 * word112

/-- Modelled from the spec: canonical state export of a constant-product
pool as storage-slot shaped key/value pairs. -/
def UniswapV2Pool.reserves (pool : UniswapV2Pool) : StorageDiff :=
  [(v2ReserveSlot, packReserves pool.reserve_0 pool.reserve_1)]

/-- Decoding one packed reserve word back into the two reserve fields. -/
def UniswapV2Pool.apply_storage_word (pool : UniswapV2Pool) (w : Nat) :
    UniswapV2Pool :=
  { pool with reserve_0 := w % word112, reserve_1 := w / word112 % word112 }

/-- Modelled from the spec: apply a storage diff to a constant-product pool —
the recognized reserve slot is applied directly, every other key is ignored,
and the result signals whether a recognized key was present. -/
def UniswapV2Pool.sync_from_storage (pool : UniswapV2Pool)
    (diff : StorageDiff) : Option Unit × UniswapV2Pool :=
  match List.lookup v2ReserveSlot diff with
  | some w => (some (), pool.apply_storage_word w)
  | none => (none, pool)

/-- Modelled from the spec: hydration of a constant-product pool from an
authoritative read, honoring the supplied optional block height; on network
failure the error is surfaced and prior state is left untouched. -/
def UniswapV2Pool.populate_data (pool : UniswapV2Pool)
    (block_number : Option Nat) (middleware : Chain) :
    Except AMMError Unit × UniswapV2Pool :=
  match middleware.storage_at pool.address block_number with
  | some slots => (.ok (), (pool.sync_from_storage slots).2)
  | none => (.error (.middlewareError 0), pool)

/-- Modelled from the spec: authoritative full-state read at latest height,
replacing the protocol fields atomically; on failure the prior state is left
untouched. -/
def UniswapV2Pool.sync (pool : UniswapV2Pool) (middleware : Chain) :
    Except AMMError Unit × UniswapV2Pool :=
  match middleware.storage_at pool.address none with
  | some slots => (.ok (), (pool.sync_from_storage slots).2)
  | none => (.error (.middlewareError 0), pool)

/-- Modelled from the spec: decode one event by signature — a Sync event
carries an authoritative reserve snapshot (not a delta); an unrecognized
topic or malformed payload is an event-log error. -/
def UniswapV2Pool.sync_from_log (pool : UniswapV2Pool) (log : Log) :
    Except EventLogError Unit × UniswapV2Pool :=
  if log.topic0 == v2SyncTopic then
    match log.data with
    | [r0, r1] =>
      (.ok (), { pool with reserve_0 := r0 % word112, reserve_1 := r1 % word112 })
    | _ => (.error .malformedLog, pool)
  else
    (.error .invalidEventSignature, pool)

/-- Modelled from the spec: marginal exchange rate of the other token per
unit of base token, as an exact ratio of the reserves; zero reserves raise an
arithmetic error. The Rust return value is a hardware `f64` approximation of
this exact value. -/
def UniswapV2Pool.calculate_price (pool : UniswapV2Pool) (base_token : H160) :
    Except ArithmeticError Rat :=
  if pool.reserve_0 = 0 ∨ pool.reserve_1 = 0 then .error .zeroDenominator
  else if base_token == pool.token_a then
    .ok ((pool.reserve_1 : Rat) / (pool.reserve_0 : Rat))
  else
    .ok ((pool.reserve_0 : Rat) / (pool.reserve_1 : Rat))

/-- Modelled from the spec: local derivative of swap output with respect to
input, estimated as the exact unit forward difference of `simulate_swap`. -/
def UniswapV2Pool.gradient (pool : UniswapV2Pool) (token_in : H160)
    (amount : U256) : Except SwapSimulationError Rat := do
  let y1 ← pool.simulate_swap token_in (amount + 1)
  let y0 ← pool.simulate_swap token_in amount
  pure ((y1 : Rat) - (y0 : Rat))

/-- Modelled from the spec: counterpart-token lookup; unspecified behavior
for a non-member token defaults to the first token's counterpart rule. -/
def UniswapV2Pool.get_token_out (pool : UniswapV2Pool) (token_in : H160) :
    H160 :=
  if token_in == pool.token_a then pool.token_b else pool.token_a

/-- Modelled from the spec: counterpart-token lookup returning `none` for a
non-member token. -/
def UniswapV2Pool.opp_token (pool : UniswapV2Pool) (token : H160) :
    Option H160 :=
  if token == pool.token_a then some pool.token_b
  else if token == pool.token_b then some pool.token_a
  else none

/-- Modelled from the spec: `ConcentratedLiquidityPool` (`UniswapV3Pool`)
data — address; tokens; fee tier; current tick; current sqrt-price; active
liquidity; sparse ordered tick-index to liquidity-net mapping; tick spacing.
The `ticks` list is maintained sorted strictly ascending by tick index. -/
structure UniswapV3Pool where
  address : H160
  token_a : H160
  token_b : H160
  fee : Nat
  tick : Int
  sqrt_price : U256
  liquidity : U256
  tick_spacing : Int
  ticks : List (Int × Int)
deriving DecidableEq

/-- Insert or accumulate a liquidity-net delta at one tick index, keeping the
sparse tick list sorted strictly ascending. -/
def updateTickNet (ticks : List (Int × Int)) (t : Int) (delta : Int) :
    List (Int × Int) :=
  match ticks with
  | [] => [(t, delta)]
  | (u, net) :: rest =>
    if t < u then (t, delta) :: (u, net) :: rest
    else if t = u then (u, net + delta) :: rest
    else (u, net) :: updateTickNet rest t delta

/-- Modelled from the spec: the tick walk of the concentrated-liquidity swap.
The walk consumes the input against the active liquidity one range at a time:
if the remaining input fits in the current range it stops there, otherwise it
crosses the next initialized tick, adjusts the active liquidity by that
tick's liquidity-net (clamped at zero: liquidity is never negative) and
continues; running past the edge of the known ticks is a swap-simulation
error. The spec fixes this walk structure but not the in-range price math,
so the in-range step here uses the active liquidity as the range capacity
and a unit exchange rate as a stand-in. Returns (output, final liquidity,
final tick). -/
def v3Walk (boundaries : List (Int × Int)) (current_tick : Int)
    (liquidity amount_left out_acc : Nat) :
    Except SwapSimulationError (Nat × Nat × Int) :=
  if amount_left ≤ liquidity then
    .ok (out_acc + amount_left, liquidity, current_tick)
  else
    match boundaries with
    | [] => .error .tickBoundsExceeded
    | (t, net) :: rest =>
      v3Walk rest t (Int.toNat (Int.ofNat liquidity + net))
        (amount_left - liquidity) (out_acc + liquidity)

/-- Modelled from the spec: the common core of the concentrated-liquidity
swap — walk the initialized ticks from the current tick in the direction
implied by `token_in`. -/
def UniswapV3Pool.swap_core (pool : UniswapV3Pool) (token_in : H160)
    (amount_in : U256) : Except SwapSimulationError (U256 × U256 × Int) :=
  if token_in == pool.token_a then
    v3Walk ((pool.ticks.filter (fun p => decide (p.1 < pool.tick))).reverse)
      pool.tick pool.liquidity amount_in 0
  else
    v3Walk (pool.ticks.filter (fun p => decide (pool.tick < p.1)))
      pool.tick pool.liquidity amount_in 0

/-- Modelled from the spec: pure hypothetical swap projection for a
concentrated-liquidity pool. -/
def UniswapV3Pool.simulate_swap (pool : UniswapV3Pool) (token_in : H160)
    (amount_in : U256) : Except SwapSimulationError U256 :=
  match pool.swap_core token_in amount_in with
  | .ok r => .ok r.1
  | .error e => .error e

/-- Modelled from the spec: same swap computation, additionally committing
the resulting active liquidity and tick to the pool. -/
def UniswapV3Pool.simulate_swap_mut (pool : UniswapV3Pool) (token_in : H160)
    (amount_in : U256) : Except SwapSimulationError U256 × UniswapV3Pool :=
  match pool.swap_core token_in amount_in with
  | .ok r => (.ok r.1, { pool with liquidity := r.2.1, tick := r.2.2 })
  | .error e => (.error e, pool)

/-- Modelled from the spec: the fixed two-token set of a
concentrated-liquidity pool. -/
def UniswapV3Pool.tokens (pool : UniswapV3Pool) : List H160 :=
  [pool.token_a, pool.token_b]

/-- Modelled from the spec: the event topics the concentrated-liquidity
engine needs subscribed (Swap, Mint, Burn). -/
def UniswapV3Pool.sync_on_event_signatures (_pool : UniswapV3Pool) :
    List H256 :=
  [v3SwapTopic, v3MintTopic, v3BurnTopic]

/-- Modelled from the spec: canonical state export of a
concentrated-liquidity pool as storage-slot shaped key/value pairs. -/
def UniswapV3Pool.reserves (pool : UniswapV3Pool) : StorageDiff :=
  [(v3Slot0, pool.sqrt_price % word256), (v3LiquiditySlot, pool.liquidity % word256)]

/-- Modelled from the spec: apply a storage diff to a concentrated-liquidity
pool — recognized sqrt-price and liquidity slots are applied directly, every
other key is ignored, and the result signals whether a recognized key was
present. -/
def UniswapV3Pool.sync_from_storage (pool : UniswapV3Pool)
    (diff : StorageDiff) : Option Unit × UniswapV3Pool :=
  match List.lookup v3Slot0 diff, List.lookup v3LiquiditySlot diff with
  | some w0, some w1 =>
    (some (), { pool with sqrt_price := w0 % word256, liquidity := w1 % word256 })
  | some w0, none => (some (), { pool with sqrt_price := w0 % word256 })
  | none, some w1 => (some (), { pool with liquidity := w1 % word256 })
  | none, none => (none, pool)

/-- Modelled from the spec: hydration of a concentrated-liquidity pool from
an authoritative read, honoring the supplied optional historical height
(tick state is history-dependent). -/
def UniswapV3Pool.populate_data (pool : UniswapV3Pool)
    (block_number : Option Nat) (middleware : Chain) :
    Except AMMError Unit × UniswapV3Pool :=
  match middleware.storage_at pool.address block_number with
  | some slots => (.ok (), (pool.sync_from_storage slots).2)
  | none => (.error (.middlewareError 0), pool)

/-- Modelled from the spec: authoritative full-state read at latest height;
on failure the prior state is left untouched. -/
def UniswapV3Pool.sync (pool : UniswapV3Pool) (middleware : Chain) :
    Except AMMError Unit × UniswapV3Pool :=
  match middleware.storage_at pool.address none with
  | some slots => (.ok (), (pool.sync_from_storage slots).2)
  | none => (.error (.middlewareError 0), pool)

/-- Modelled from the spec: decode one event by signature — a Swap event
carries the authoritative post-swap sqrt-price/liquidity/tick triple applied
directly; Mint and Burn adjust liquidity-net at their boundary ticks and, if
the boundary range covers the current tick, the active liquidity; anything
else is an event-log error. -/
def UniswapV3Pool.sync_from_log (pool : UniswapV3Pool) (log : Log) :
    Except EventLogError Unit × UniswapV3Pool :=
  if log.topic0 == v3SwapTopic then
    match log.data with
    | [sp, lq, tk] =>
      (.ok (), { pool with sqrt_price := sp % word256, liquidity := lq % word256,
                           tick := Int.ofNat tk })
    | _ => (.error .malformedLog, pool)
  else if log.topic0 == v3MintTopic then
    match log.data with
    | [lower, upper, amount] =>
      let ticks1 := updateTickNet pool.ticks (Int.ofNat lower) (Int.ofNat amount)
      let ticks2 := updateTickNet ticks1 (Int.ofNat upper) (-(Int.ofNat amount))
      if Int.ofNat lower ≤ pool.tick ∧ pool.tick < Int.ofNat upper then
        (.ok (), { pool with ticks := ticks2, liquidity := pool.liquidity + amount })
      else
        (.ok (), { pool with ticks := ticks2 })
    | _ => (.error .malformedLog, pool)
  else if log.topic0 == v3BurnTopic then
    match log.data with
    | [lower, upper, amount] =>
      let ticks1 := updateTickNet pool.ticks (Int.ofNat lower) (-(Int.ofNat amount))
      let ticks2 := updateTickNet ticks1 (Int.ofNat upper) (Int.ofNat amount)
      if Int.ofNat lower ≤ pool.tick ∧ pool.tick < Int.ofNat upper then
        (.ok (), { pool with ticks := ticks2, liquidity := pool.liquidity - amount })
      else
        (.ok (), { pool with ticks := ticks2 })
    | _ => (.error .malformedLog, pool)
  else
    (.error .invalidEventSignature, pool)

/-- Modelled from the spec: marginal price from the current sqrt-price
(price of token_a in token_b is sqrt-price squared over 2 to the 192), as an
exact rational; a zero sqrt-price raises an arithmetic error. The Rust
return value is a hardware `f64` approximation of this exact value. -/
def UniswapV3Pool.calculate_price (pool : UniswapV3Pool) (base_token : H160) :
    Except ArithmeticError Rat :=
  if pool.sqrt_price = 0 then .error .zeroDenominator
  else
    let price_a : Rat :=
      ((pool.sqrt_price * pool.sqrt_price : Nat) : Rat) / ((2 ^ 192 : Nat) : Rat)
    if base_token == pool.token_a then .ok price_a else .ok (1 / price_a)

/-- Modelled from the spec: local derivative of swap output with respect to
input, estimated as the exact unit forward difference of `simulate_swap`. -/
def UniswapV3Pool.gradient (pool : UniswapV3Pool) (token_in : H160)
    (amount : U256) : Except SwapSimulationError Rat := do
  let y1 ← pool.simulate_swap token_in (amount + 1)
  let y0 ← pool.simulate_swap token_in amount
  pure ((y1 : Rat) - (y0 : Rat))

/-- Modelled from the spec: counterpart-token lookup. -/
def UniswapV3Pool.get_token_out (pool : UniswapV3Pool) (token_in : H160) :
    H160 :=
  if token_in == pool.token_a then pool.token_b else pool.token_a

/-- Modelled from the spec: counterpart-token lookup returning `none` for a
non-member token. -/
def UniswapV3Pool.opp_token (pool : UniswapV3Pool) (token : H160) :
    Option H160 :=
  if token == pool.token_a then some pool.token_b
  else if token == pool.token_b then some pool.token_a
  else none

/-- Modelled from the spec: `VaultAccount` (`ERC4626Vault`) data —
vault-token address; underlying-asset address; total shares; total managed
assets. -/
structure ERC4626Vault where
  vault_token : H160
  asset_token : H160
  vault_reserve : U256
  asset_reserve : U256
deriving DecidableEq

/-- Modelled from the spec: the fixed two-token set of a vault: the vault
token and the underlying asset. -/
def ERC4626Vault.tokens (vault : ERC4626Vault) : List H160 :=
  [vault.vault_token, vault.asset_token]

/-- Modelled from the spec: the event topics the vault engine needs
subscribed (Deposit, Withdraw). -/
def ERC4626Vault.sync_on_event_signatures (_vault : ERC4626Vault) :
    List H256 :=
  [vaultDepositTopic, vaultWithdrawTopic]

/-- Modelled from the spec: shares-to-assets conversion by floor-rounded
ratio, direction chosen by `token_in` (deposit converts assets to shares,
redeem converts shares to assets); zero totals on the denominator side raise
a swap-simulation error. -/
def ERC4626Vault.simulate_swap (vault : ERC4626Vault) (token_in : H160)
    (amount_in : U256) : Except SwapSimulationError U256 :=
  if token_in == vault.asset_token then
    if vault.asset_reserve = 0 then .error .zeroLiquidity
    else .ok (amount_in * vault.vault_reserve / vault.asset_reserve)
  else
    if vault.vault_reserve = 0 then .error .zeroLiquidity
    else .ok (amount_in * vault.asset_reserve / vault.vault_reserve)

/-- Modelled from the spec: same conversion, additionally committing the
post-swap totals to the vault. -/
def ERC4626Vault.simulate_swap_mut (vault : ERC4626Vault) (token_in : H160)
    (amount_in : U256) : Except SwapSimulationError U256 × ERC4626Vault :=
  if token_in == vault.asset_token then
    if vault.asset_reserve = 0 then (.error .zeroLiquidity, vault)
    else
      let out := amount_in * vault.vault_reserve / vault.asset_reserve
      (.ok out, { vault with asset_reserve := vault.asset_reserve + amount_in,
                             vault_reserve := vault.vault_reserve + out })
  else
    if vault.vault_reserve = 0 then (.error .zeroLiquidity, vault)
    else
      let out := amount_in * vault.asset_reserve / vault.vault_reserve
      (.ok out, { vault with vault_reserve := vault.vault_reserve - amount_in,
                             asset_reserve := vault.asset_reserve - out })

/-- Modelled from the spec: canonical state export of a vault as
storage-slot shaped key/value pairs. -/
def ERC4626Vault.reserves (vault : ERC4626Vault) : StorageDiff :=
  [(vaultSharesSlot, vault.vault_reserve % word256),
   (vaultAssetsSlot, vault.asset_reserve % word256)]

/-- Modelled from the spec: apply a storage diff to a vault — recognized
share-supply and asset-total slots are applied directly, every other key is
ignored, and the result signals whether a recognized key was present. -/
def ERC4626Vault.sync_from_storage (vault : ERC4626Vault)
    (diff : StorageDiff) : Option Unit × ERC4626Vault :=
  match List.lookup vaultSharesSlot diff, List.lookup vaultAssetsSlot diff with
  | some w0, some w1 =>
    (some (), { vault with vault_reserve := w0 % word256, asset_reserve := w1 % word256 })
  | some w0, none => (some (), { vault with vault_reserve := w0 % word256 })
  | none, some w1 => (some (), { vault with asset_reserve := w1 % word256 })
  | none, none => (none, vault)

/-- Modelled from the spec: hydration of a vault from an authoritative read,
honoring the supplied optional block height; on network failure the error is
surfaced and prior state is left untouched. -/
def ERC4626Vault.populate_data (vault : ERC4626Vault)
    (block_number : Option Nat) (middleware : Chain) :
    Except AMMError Unit × ERC4626Vault :=
  match middleware.storage_at vault.vault_token block_number with
  | some slots => (.ok (), (vault.sync_from_storage slots).2)
  | none => (.error (.middlewareError 0), vault)

/-- Modelled from the spec: authoritative full-state read at latest height;
on failure the prior state is left untouched. -/
def ERC4626Vault.sync (vault : ERC4626Vault) (middleware : Chain) :
    Except AMMError Unit × ERC4626Vault :=
  match middleware.storage_at vault.vault_token none with
  | some slots => (.ok (), (vault.sync_from_storage slots).2)
  | none => (.error (.middlewareError 0), vault)

/-- Modelled from the spec: decode one event by signature — deposit and
withdraw style events refresh the totals wholesale from the payload
snapshot; an unrecognized topic or malformed payload is an event-log
error. -/
def ERC4626Vault.sync_from_log (vault : ERC4626Vault) (log : Log) :
    Except EventLogError Unit × ERC4626Vault :=
  if log.topic0 == vaultDepositTopic || log.topic0 == vaultWithdrawTopic then
    match log.data with
    | [shares, assets] =>
      (.ok (), { vault with vault_reserve := shares % word256,
                            asset_reserve := assets % word256 })
    | _ => (.error .malformedLog, vault)
  else
    (.error .invalidEventSignature, vault)

/-- Modelled from the spec: conversion rate totalAssets/totalShares (or its
inverse for the asset side), as an exact rational; zero totals raise an
arithmetic error. The Rust return value is a hardware `f64` approximation of
this exact value. -/
def ERC4626Vault.calculate_price (vault : ERC4626Vault) (base_token : H160) :
    Except ArithmeticError Rat :=
  if vault.vault_reserve = 0 ∨ vault.asset_reserve = 0 then
    .error .zeroDenominator
  else if base_token == vault.vault_token then
    .ok ((vault.asset_reserve : Rat) / (vault.vault_reserve : Rat))
  else
    .ok ((vault.vault_reserve : Rat) / (vault.asset_reserve : Rat))

/-- Modelled from the spec: local derivative of conversion output with
respect to input, estimated as the exact unit forward difference of
`simulate_swap`. -/
def ERC4626Vault.gradient (vault : ERC4626Vault) (token_in : H160)
    (amount : U256) : Except SwapSimulationError Rat := do
  let y1 ← vault.simulate_swap token_in (amount + 1)
  let y0 ← vault.simulate_swap token_in amount
  pure ((y1 : Rat) - (y0 : Rat))

/-- Modelled from the spec: counterpart-token lookup. -/
def ERC4626Vault.get_token_out (vault : ERC4626Vault) (token_in : H160) :
    H160 :=
  if token_in == vault.vault_token then vault.asset_token
  else vault.vault_token

/-- Modelled from the spec: counterpart-token lookup returning `none` for a
non-member token. -/
def ERC4626Vault.opp_token (vault : ERC4626Vault) (token : H160) :
    Option H160 :=
  if token == vault.vault_token then some vault.asset_token
  else if token == vault.asset_token then some vault.vault_token
  else none

/-- The closed AMM variant sum type (`enum AMM`, src/src/amm/mod.rs lines
48-53): exactly one of the three engines. -/
inductive AMM
  | UniswapV2Pool (pool : UniswapV2Pool)
  | UniswapV3Pool (pool : UniswapV3Pool)
  | ERC4626Vault (vault : ERC4626Vault)
deriving DecidableEq

/-- Dispatcher `address` (src lines 57-63): the pool address for the two
pool variants and the vault token for the vault variant. -/
def AMM.address : AMM → H160
  | .UniswapV2Pool pool => pool.address
  | .UniswapV3Pool pool => pool.address
  | .ERC4626Vault vault => vault.vault_token

/-- Dispatcher `sync` (src lines 65-71): forwards to the active variant. -/
def AMM.sync : AMM → Chain → Except AMMError Unit × AMM
  | .UniswapV2Pool pool, middleware =>
    let r := pool.sync middleware
    (r.1, .UniswapV2Pool r.2)
  | .UniswapV3Pool pool, middleware =>
    let r := pool.sync middleware
    (r.1, .UniswapV3Pool r.2)
  | .ERC4626Vault vault, middleware =>
    let r := vault.sync middleware
    (r.1, .ERC4626Vault r.2)

/-- Dispatcher `sync_on_event_signatures` (src lines 73-79). -/
def AMM.sync_on_event_signatures : AMM → List H256
  | .UniswapV2Pool pool => pool.sync_on_event_signatures
  | .UniswapV3Pool pool => pool.sync_on_event_signatures
  | .ERC4626Vault vault => vault.sync_on_event_signatures

/-- Dispatcher `sync_from_log` (src lines 81-87). -/
def AMM.sync_from_log : AMM → Log → Except EventLogError Unit × AMM
  | .UniswapV2Pool pool, log =>
    let r := pool.sync_from_log log
    (r.1, .UniswapV2Pool r.2)
  | .UniswapV3Pool pool, log =>
    let r := pool.sync_from_log log
    (r.1, .UniswapV3Pool r.2)
  | .ERC4626Vault vault, log =>
    let r := vault.sync_from_log log
    (r.1, .ERC4626Vault r.2)

/-- Dispatcher `sync_from_storage` (src lines 89-95). -/
def AMM.sync_from_storage : AMM → StorageDiff → Option Unit × AMM
  | .UniswapV2Pool pool, diff =>
    let r := pool.sync_from_storage diff
    (r.1, .UniswapV2Pool r.2)
  | .UniswapV3Pool pool, diff =>
    let r := pool.sync_from_storage diff
    (r.1, .UniswapV3Pool r.2)
  | .ERC4626Vault vault, diff =>
    let r := vault.sync_from_storage diff
    (r.1, .ERC4626Vault r.2)

/-- Dispatcher `reserves` (src lines 97-103). -/
def AMM.reserves : AMM → StorageDiff
  | .UniswapV2Pool pool => pool.reserves
  | .UniswapV3Pool pool => pool.reserves
  | .ERC4626Vault vault => vault.reserves

/-- Dispatcher `simulate_swap` (src lines 105-111). -/
def AMM.simulate_swap : AMM → H160 → U256 → Except SwapSimulationError U256
  | .UniswapV2Pool pool, token_in, amount_in => pool.simulate_swap token_in amount_in
  | .UniswapV3Pool pool, token_in, amount_in => pool.simulate_swap token_in amount_in
  | .ERC4626Vault vault, token_in, amount_in => vault.simulate_swap token_in amount_in

/-- Dispatcher `simulate_swap_mut` (src lines 113-123). -/
def AMM.simulate_swap_mut : AMM → H160 → U256 →
    Except SwapSimulationError U256 × AMM
  | .UniswapV2Pool pool, token_in, amount_in =>
    let r := pool.simulate_swap_mut token_in amount_in
    (r.1, .UniswapV2Pool r.2)
  | .UniswapV3Pool pool, token_in, amount_in =>
    let r := pool.simulate_swap_mut token_in amount_in
    (r.1, .UniswapV3Pool r.2)
  | .ERC4626Vault vault, token_in, amount_in =>
    let r := vault.simulate_swap_mut token_in amount_in
    (r.1, .ERC4626Vault r.2)

/-- Dispatcher `gradient` (src lines 125-131). -/
def AMM.gradient : AMM → H160 → U256 → Except SwapSimulationError Rat
  | .UniswapV2Pool pool, token_in, amount_in => pool.gradient token_in amount_in
  | .UniswapV3Pool pool, token_in, amount_in => pool.gradient token_in amount_in
  | .ERC4626Vault vault, token_in, amount_in => vault.gradient token_in amount_in

/-- Dispatcher `get_token_out` (src lines 133-139). -/
def AMM.get_token_out : AMM → H160 → H160
  | .UniswapV2Pool pool, token_in => pool.get_token_out token_in
  | .UniswapV3Pool pool, token_in => pool.get_token_out token_in
  | .ERC4626Vault vault, token_in => vault.get_token_out token_in

/-- Dispatcher `opp_token` (src lines 141-147). -/
def AMM.opp_token : AMM → H160 → Option H160
  | .UniswapV2Pool pool, token_in => pool.opp_token token_in
  | .UniswapV3Pool pool, token_in => pool.opp_token token_in
  | .ERC4626Vault vault, token_in => vault.opp_token token_in

/-- Dispatcher `populate_data` (src lines 149-159): the concentrated
liquidity variant receives the caller's block number; the constant-product
and vault variants are always hydrated with `None` (latest state). -/
def AMM.populate_data : AMM → Option Nat → Chain → Except AMMError Unit × AMM
  | .UniswapV2Pool pool, _block_number, middleware =>
    let r := pool.populate_data none middleware
    (r.1, .UniswapV2Pool r.2)
  | .UniswapV3Pool pool, block_number, middleware =>
    let r := pool.populate_data block_number middleware
    (r.1, .UniswapV3Pool r.2)
  | .ERC4626Vault vault, _block_number, middleware =>
    let r := vault.populate_data none middleware
    (r.1, .ERC4626Vault r.2)

/-- Dispatcher `tokens` (src lines 161-167). -/
def AMM.tokens : AMM → List H160
  | .UniswapV2Pool pool => pool.tokens
  | .UniswapV3Pool pool => pool.tokens
  | .ERC4626Vault vault => vault.tokens

/-- Dispatcher `calculate_price` (src lines 169-175), with the price value
modelled exactly (the Rust return value is an `f64` approximation of it). -/
def AMM.calculate_price : AMM → H160 → Except ArithmeticError Rat
  | .UniswapV2Pool pool, base_token => pool.calculate_price base_token
  | .UniswapV3Pool pool, base_token => pool.calculate_price base_token
  | .ERC4626Vault vault, base_token => vault.calculate_price base_token

/-- Dispatcher equality (`impl PartialEq for AMM`, src lines 178-182):
`self.address() == other.address()`. -/
def AMM.beq (a b : AMM) : Bool :=
  a.address == b.address

/-- The set of storage keys each modelled engine recognizes in
`sync_from_storage`. -/
def AMM.recognized_storage_keys : AMM → List H256
  | .UniswapV2Pool _ => [v2ReserveSlot]
  | .UniswapV3Pool _ => [v3Slot0, v3LiquiditySlot]
  | .ERC4626Vault _ => [vaultSharesSlot, vaultAssetsSlot]

/-- Numeric representation classification for a declared return type of the
capability contract. -/
inductive NumericRepr
  | hardwareFloat
  | softwareBigFloat
  | exactRational
deriving DecidableEq

/-- Representation of the value returned by `calculate_price`, translated
from the trait signature (src line 26): `Result of f64`, a hardware
floating-point type. -/
def calculate_price_result_repr : NumericRepr :=
  .hardwareFloat

/-- Representation of the value returned by `gradient`, translated from the
trait signature (src line 43): `Result of num_bigfloat BigFloat`, a software
multi-digit float. -/
def gradient_result_repr : NumericRepr :=
  .softwareBigFloat

/-- A network handle whose every read fails. -/
def chainFail : Chain :=
  ⟨fun _ _ => none⟩

/-- A network handle whose every read returns one reserve slot. -/
def chainSlots : Chain :=
  ⟨fun _ _ => some [(8, 77)]⟩

/-- C1: for every two AMM dispatcher instances, dispatcher equality holds
exactly when the two addresses agree; in particular two constant-product
instances with the same address but differing reserves (and fee) compare
equal. -/
theorem amm_eq_iff_address_eq :
    (∀ a b : AMM, AMM.beq a b = true ↔ a.address = b.address) ∧
    (∀ (addr t0 t1 : H160) (r0 r1 f r0' r1' f' : Nat),
      AMM.beq (.UniswapV2Pool ⟨addr, t0, t1, r0, r1, f⟩)
        (.UniswapV2Pool ⟨addr, t0, t1, r0', r1', f'⟩) = true) := by
  constructor
  · intro a b
    simp [AMM.beq]
  · intro addr t0 t1 r0 r1 f r0' r1' f'
    simp [AMM.beq, AMM.address]

/-- C10: dispatcher equality ignores the variant tag entirely: it is a total
equivalence relation on all AMM values, a constant-product pool and a vault
compare equal exactly when the pool address equals the vault token, and in
particular any pool/vault pair sharing that address compares equal. -/
theorem amm_eq_equivalence_cross_variant :
    Equivalence (fun a b : AMM => AMM.beq a b = true) ∧
    (∀ (p : UniswapV2Pool) (v : ERC4626Vault),
      AMM.beq (.UniswapV2Pool p) (.ERC4626Vault v) =
        (p.address == v.vault_token)) ∧
    (∀ (addr t0 t1 ta : H160) (r0 r1 f s as : Nat),
      AMM.beq (.UniswapV2Pool ⟨addr, t0, t1, r0, r1, f⟩)
        (.ERC4626Vault ⟨addr, ta, s, as⟩) = true) := by
  refine ⟨⟨?_, ?_, ?_⟩, ?_, ?_⟩
  · intro a
    simp [AMM.beq]
  · intro a b h
    simp only [AMM.beq, beq_iff_eq] at h ⊢
    exact h.symm
  · intro a b c hab hbc
    simp only [AMM.beq, beq_iff_eq] at hab hbc ⊢
    exact hab.trans hbc
  · intro p v
    rfl
  · intro addr t0 t1 ta r0 r1 f s as
    simp [AMM.beq, AMM.address]

/-- C2: the dispatcher forwards every capability operation (address, tokens,
sync, sync_on_event_signatures, sync_from_log, sync_from_storage, reserves,
calculate_price, simulate_swap, simulate_swap_mut, gradient, get_token_out,
opp_token) to its single active variant: applied to a wrapped variant value
it returns exactly what the variant's own operation returns on that value,
and leaves the variant in the state the variant's operation leaves it, with
no shared base state. -/
theorem amm_dispatcher_forwards (p : UniswapV2Pool) (q : UniswapV3Pool)
    (v : ERC4626Vault) (c : Chain) (l : Log) (d : StorageDiff)
    (t : H160) (a : U256) :
    (AMM.address (.UniswapV2Pool p) = p.address ∧
     AMM.tokens (.UniswapV2Pool p) = p.tokens ∧
     AMM.sync (.UniswapV2Pool p) c = ((p.sync c).1, .UniswapV2Pool (p.sync c).2) ∧
     AMM.sync_on_event_signatures (.UniswapV2Pool p) = p.sync_on_event_signatures ∧
     AMM.sync_from_log (.UniswapV2Pool p) l =
       ((p.sync_from_log l).1, .UniswapV2Pool (p.sync_from_log l).2) ∧
     AMM.sync_from_storage (.UniswapV2Pool p) d =
       ((p.sync_from_storage d).1, .UniswapV2Pool (p.sync_from_storage d).2) ∧
     AMM.reserves (.UniswapV2Pool p) = p.reserves ∧
     AMM.calculate_price (.UniswapV2Pool p) t = p.calculate_price t ∧
     AMM.simulate_swap (.UniswapV2Pool p) t a = p.simulate_swap t a ∧
     AMM.simulate_swap_mut (.UniswapV2Pool p) t a =
       ((p.simulate_swap_mut t a).1, .UniswapV2Pool (p.simulate_swap_mut t a).2) ∧
     AMM.gradient (.UniswapV2Pool p) t a = p.gradient t a ∧
     AMM.get_token_out (.UniswapV2Pool p) t = p.get_token_out t ∧
     AMM.opp_token (.UniswapV2Pool p) t = p.opp_token t) ∧
    (AMM.address (.UniswapV3Pool q) = q.address ∧
     AMM.tokens (.UniswapV3Pool q) = q.tokens ∧
     AMM.sync (.UniswapV3Pool q) c = ((q.sync c).1, .UniswapV3Pool (q.sync c).2) ∧
     AMM.sync_on_event_signatures (.UniswapV3Pool q) = q.sync_on_event_signatures ∧
     AMM.sync_from_log (.UniswapV3Pool q) l =
       ((q.sync_from_log l).1, .UniswapV3Pool (q.sync_from_log l).2) ∧
     AMM.sync_from_storage (.UniswapV3Pool q) d =
       ((q.sync_from_storage d).1, .UniswapV3Pool (q.sync_from_storage d).2) ∧
     AMM.reserves (.UniswapV3Pool q) = q.reserves ∧
     AMM.calculate_price (.UniswapV3Pool q) t = q.calculate_price t ∧
     AMM.simulate_swap (.UniswapV3Pool q) t a = q.simulate_swap t a ∧
     AMM.simulate_swap_mut (.UniswapV3Pool q) t a =
       ((q.simulate_swap_mut t a).1, .UniswapV3Pool (q.simulate_swap_mut t a).2) ∧
     AMM.gradient (.UniswapV3Pool q) t a = q.gradient t a ∧
     AMM.get_token_out (.UniswapV3Pool q) t = q.get_token_out t ∧
     AMM.opp_token (.UniswapV3Pool q) t = q.opp_token t) ∧
    (AMM.address (.ERC4626Vault v) = v.vault_token ∧
     AMM.tokens (.ERC4626Vault v) = v.tokens ∧
     AMM.sync (.ERC4626Vault v) c = ((v.sync c).1, .ERC4626Vault (v.sync c).2) ∧
     AMM.sync_on_event_signatures (.ERC4626Vault v) = v.sync_on_event_signatures ∧
     AMM.sync_from_log (.ERC4626Vault v) l =
       ((v.sync_from_log l).1, .ERC4626Vault (v.sync_from_log l).2) ∧
     AMM.sync_from_storage (.ERC4626Vault v) d =
       ((v.sync_from_storage d).1, .ERC4626Vault (v.sync_from_storage d).2) ∧
     AMM.reserves (.ERC4626Vault v) = v.reserves ∧
     AMM.calculate_price (.ERC4626Vault v) t = v.calculate_price t ∧
     AMM.simulate_swap (.ERC4626Vault v) t a = v.simulate_swap t a ∧
     AMM.simulate_swap_mut (.ERC4626Vault v) t a =
       ((v.simulate_swap_mut t a).1, .ERC4626Vault (v.simulate_swap_mut t a).2) ∧
     AMM.gradient (.ERC4626Vault v) t a = v.gradient t a ∧
     AMM.get_token_out (.ERC4626Vault v) t = v.get_token_out t ∧
     AMM.opp_token (.ERC4626Vault v) t = v.opp_token t) :=
  ⟨⟨rfl, rfl, rfl, rfl, rfl, rfl, rfl, rfl, rfl, rfl, rfl, rfl, rfl⟩,
   ⟨rfl, rfl, rfl, rfl, rfl, rfl, rfl, rfl, rfl, rfl, rfl, rfl, rfl⟩,
   ⟨rfl, rfl, rfl, rfl, rfl, rfl, rfl, rfl, rfl, rfl, rfl, rfl, rfl⟩⟩

/-- C3: the dispatcher's populate_data forwards the caller's block height
only to the concentrated-liquidity variant; the constant-product and vault
variants are always hydrated with no height (latest state), whatever height
the caller supplied. -/
theorem amm_populate_data_height_forwarding (p : UniswapV2Pool)
    (q : UniswapV3Pool) (v : ERC4626Vault) (h h' : Option Nat) (c : Chain) :
    AMM.populate_data (.UniswapV2Pool p) h c =
      ((p.populate_data none c).1, .UniswapV2Pool (p.populate_data none c).2) ∧
    AMM.populate_data (.ERC4626Vault v) h c =
      ((v.populate_data none c).1, .ERC4626Vault (v.populate_data none c).2) ∧
    AMM.populate_data (.UniswapV3Pool q) h c =
      ((q.populate_data h c).1, .UniswapV3Pool (q.populate_data h c).2) ∧
    AMM.populate_data (.UniswapV2Pool p) h c =
      AMM.populate_data (.UniswapV2Pool p) h' c ∧
    AMM.populate_data (.ERC4626Vault v) h c =
      AMM.populate_data (.ERC4626Vault v) h' c :=
  ⟨rfl, rfl, rfl, rfl, rfl⟩

/-- Existence over a one-key list reduces to the property at that key. -/
theorem exists_mem_single_key {k : H256} {P : H256 → Prop} :
    (∃ x ∈ [k], P x) ↔ P k := by
  simp

/-- Existence over a two-key list reduces to a disjunction at the two keys. -/
theorem exists_mem_pair_key {k1 k2 : H256} {P : H256 → Prop} :
    (∃ x ∈ [k1, k2], P x) ↔ P k1 ∨ P k2 := by
  simp

/-- C4: for every AMM instance and storage diff, sync_from_storage returns
the presence signal `some ()` exactly when some recognized key is present in
the diff, and its whole result depends only on the recognized keys, so
unrecognized keys are ignored (the return type `Option Unit` carries no
error at all). -/
theorem amm_sync_from_storage_presence (amm : AMM) (diff : StorageDiff) :
    ((AMM.sync_from_storage amm diff).1 = some () ↔
      ∃ k ∈ AMM.recognized_storage_keys amm, (List.lookup k diff).isSome = true) ∧
    (∀ diff2 : StorageDiff,
      (∀ k ∈ AMM.recognized_storage_keys amm,
        List.lookup k diff = List.lookup k diff2) →
      AMM.sync_from_storage amm diff = AMM.sync_from_storage amm diff2) := by
  cases amm with
  | UniswapV2Pool pool =>
    constructor
    · simp only [AMM.sync_from_storage, UniswapV2Pool.sync_from_storage,
        AMM.recognized_storage_keys, exists_mem_single_key]
      cases h : List.lookup v2ReserveSlot diff <;> simp [h]
    · intro diff2 hagree
      have h8 := hagree v2ReserveSlot (by simp [AMM.recognized_storage_keys])
      simp only [AMM.sync_from_storage, UniswapV2Pool.sync_from_storage, h8]
  | UniswapV3Pool pool =>
    constructor
    · simp only [AMM.sync_from_storage, UniswapV3Pool.sync_from_storage,
        AMM.recognized_storage_keys, exists_mem_pair_key]
      cases h0 : List.lookup v3Slot0 diff <;>
        cases h4 : List.lookup v3LiquiditySlot diff <;>
          simp [h0, h4]
    · intro diff2 hagree
      have h0 := hagree v3Slot0 (by simp [AMM.recognized_storage_keys])
      have h4 := hagree v3LiquiditySlot (by simp [AMM.recognized_storage_keys])
      simp only [AMM.sync_from_storage, UniswapV3Pool.sync_from_storage, h0, h4]
  | ERC4626Vault vault =>
    constructor
    · simp only [AMM.sync_from_storage, ERC4626Vault.sync_from_storage,
        AMM.recognized_storage_keys, exists_mem_pair_key]
      cases h0 : List.lookup vaultSharesSlot diff <;>
        cases h1 : List.lookup vaultAssetsSlot diff <;>
          simp [h0, h1]
    · intro diff2 hagree
      have h0 := hagree vaultSharesSlot (by simp [AMM.recognized_storage_keys])
      have h1 := hagree vaultAssetsSlot (by simp [AMM.recognized_storage_keys])
      simp only [AMM.sync_from_storage, ERC4626Vault.sync_from_storage, h0, h1]

/-- Witness for C4 at a concrete pool and concrete diffs: a diff holding the
recognized reserve slot yields the presence signal, and two diffs differing
only in unrecognized keys yield identical results. -/
theorem amm_sync_from_storage_presence_witness :
    (AMM.sync_from_storage (.UniswapV2Pool ⟨1, 2, 3, 4, 5, 30⟩)
      [(9, 1), (8, 77)]).1 = some () ∧
    AMM.sync_from_storage (.UniswapV2Pool ⟨1, 2, 3, 4, 5, 30⟩) [(9, 1), (8, 77)] =
      AMM.sync_from_storage (.UniswapV2Pool ⟨1, 2, 3, 4, 5, 30⟩) [(8, 77), (10, 2)] := by
  constructor
  · exact (amm_sync_from_storage_presence (.UniswapV2Pool ⟨1, 2, 3, 4, 5, 30⟩)
      [(9, 1), (8, 77)]).1.mpr ⟨8, by decide, by decide⟩
  · exact (amm_sync_from_storage_presence (.UniswapV2Pool ⟨1, 2, 3, 4, 5, 30⟩)
      [(9, 1), (8, 77)]).2 [(8, 77), (10, 2)] (by decide)

/-- C5: for every constant-product pool, simulate_swap equals the exact
integer floor formula with the fee in parts per 10000, in the direction
chosen by the input token; checked on the spec's concrete scenario with
reserves 1,000,000 and 2,000,000 and a 30 bps fee. -/
theorem v2_simulate_swap_formula (pool : UniswapV2Pool) (token_in : H160)
    (amount_in : U256) :
    (UniswapV2Pool.simulate_swap pool token_in amount_in =
      if token_in == pool.token_a then
        .ok (amount_in * (10000 - pool.fee) * pool.reserve_1 /
          (pool.reserve_0 * 10000 + amount_in * (10000 - pool.fee)))
      else
        .ok (amount_in * (10000 - pool.fee) * pool.reserve_0 /
          (pool.reserve_1 * 10000 + amount_in * (10000 - pool.fee)))) ∧
    UniswapV2Pool.simulate_swap ⟨100, 10, 20, 1000000, 2000000, 30⟩ 10 1000 =
      .ok (1000 * 9970 * 2000000 / (1000000 * 10000 + 1000 * 9970)) ∧
    UniswapV2Pool.simulate_swap ⟨100, 10, 20, 1000000, 2000000, 30⟩ 10 1000 =
      .ok 1992 :=
  ⟨rfl, rfl, rfl⟩

/-- C6: simulate_swap_mut returns the same result as simulate_swap evaluated
on the same initial state, for every variant; and it commits the post-swap
state, spelled out against simulate_swap for the constant-product and vault
engines and against the common swap core for the concentrated-liquidity
engine. -/
theorem amm_simulate_swap_mut_agrees (amm : AMM) (p : UniswapV2Pool)
    (q : UniswapV3Pool) (v : ERC4626Vault) (t : H160) (a : U256) :
    (AMM.simulate_swap_mut amm t a).1 = AMM.simulate_swap amm t a ∧
    (p.simulate_swap_mut t a).2 =
      (match p.simulate_swap t a with
       | .ok out =>
         if t == p.token_a then
           { p with reserve_0 := p.reserve_0 + a, reserve_1 := p.reserve_1 - out }
         else
           { p with reserve_1 := p.reserve_1 + a, reserve_0 := p.reserve_0 - out }
       | .error _ => p) ∧
    (v.simulate_swap_mut t a).2 =
      (match v.simulate_swap t a with
       | .ok out =>
         if t == v.asset_token then
           { v with asset_reserve := v.asset_reserve + a,
                    vault_reserve := v.vault_reserve + out }
         else
           { v with vault_reserve := v.vault_reserve - a,
                    asset_reserve := v.asset_reserve - out }
       | .error _ => v) ∧
    (q.simulate_swap_mut t a).2 =
      (match q.swap_core t a with
       | .ok r => { q with liquidity := r.2.1, tick := r.2.2 }
       | .error _ => q) := by
  refine ⟨?_, ?_, ?_, ?_⟩
  · cases amm with
    | UniswapV2Pool pool =>
      simp only [AMM.simulate_swap_mut, AMM.simulate_swap,
        UniswapV2Pool.simulate_swap_mut, UniswapV2Pool.simulate_swap]
      split <;> rfl
    | UniswapV3Pool pool =>
      simp only [AMM.simulate_swap_mut, AMM.simulate_swap,
        UniswapV3Pool.simulate_swap_mut, UniswapV3Pool.simulate_swap]
      cases pool.swap_core t a <;> rfl
    | ERC4626Vault vault =>
      simp only [AMM.simulate_swap_mut, AMM.simulate_swap,
        ERC4626Vault.simulate_swap_mut, ERC4626Vault.simulate_swap]
      split <;> split <;> rfl
  · simp only [UniswapV2Pool.simulate_swap_mut, UniswapV2Pool.simulate_swap]
    split <;> rfl
  · simp only [ERC4626Vault.simulate_swap_mut, ERC4626Vault.simulate_swap]
    split <;> split <;> rfl
  · simp only [UniswapV3Pool.simulate_swap_mut]
    cases q.swap_core t a <;> rfl

/-- C7: dispatcher sync is atomic on failure — a network error surfaces to
the caller and leaves the instance exactly as it was — while on a successful
read the protocol fields are replaced by the decode of the authoritative
payload (the same decode sync_from_storage applies to that payload). -/
theorem amm_sync_atomic (amm : AMM) (c : Chain) :
    (∀ e : AMMError, (AMM.sync amm c).1 = .error e → (AMM.sync amm c).2 = amm) ∧
    (∀ slots : StorageDiff, c.storage_at (AMM.address amm) none = some slots →
      (AMM.sync amm c).1 = .ok () ∧
      (AMM.sync amm c).2 = (AMM.sync_from_storage amm slots).2) ∧
    (c.storage_at (AMM.address amm) none = none →
      (AMM.sync amm c).1 = .error (.middlewareError 0)) := by
  cases amm with
  | UniswapV2Pool pool =>
    cases h : c.storage_at pool.address none with
    | some slots =>
      refine ⟨?_, ?_, ?_⟩
      · intro e he
        simp [AMM.sync, UniswapV2Pool.sync, h] at he
      · intro slots2 h2
        simp only [AMM.address] at h2
        rw [h] at h2
        cases h2
        simp [AMM.sync, UniswapV2Pool.sync, AMM.sync_from_storage, h]
      · intro h3
        simp only [AMM.address] at h3
        rw [h] at h3
        exact absurd h3 (by simp)
    | none =>
      refine ⟨?_, ?_, ?_⟩
      · intro e he
        simp [AMM.sync, UniswapV2Pool.sync, h]
      · intro slots2 h2
        simp only [AMM.address] at h2
        rw [h] at h2
        exact absurd h2 (by simp)
      · intro h3
        simp [AMM.sync, UniswapV2Pool.sync, h]
  | UniswapV3Pool pool =>
    cases h : c.storage_at pool.address none with
    | some slots =>
      refine ⟨?_, ?_, ?_⟩
      · intro e he
        simp [AMM.sync, UniswapV3Pool.sync, h] at he
      · intro slots2 h2
        simp only [AMM.address] at h2
        rw [h] at h2
        cases h2
        simp [AMM.sync, UniswapV3Pool.sync, AMM.sync_from_storage, h]
      · intro h3
        simp only [AMM.address] at h3
        rw [h] at h3
        exact absurd h3 (by simp)
    | none =>
      refine ⟨?_, ?_, ?_⟩
      · intro e he
        simp [AMM.sync, UniswapV3Pool.sync, h]
      · intro slots2 h2
        simp only [AMM.address] at h2
        rw [h] at h2
        exact absurd h2 (by simp)
      · intro h3
        simp [AMM.sync, UniswapV3Pool.sync, h]
  | ERC4626Vault vault =>
    cases h : c.storage_at vault.vault_token none with
    | some slots =>
      refine ⟨?_, ?_, ?_⟩
      · intro e he
        simp [AMM.sync, ERC4626Vault.sync, h] at he
      · intro slots2 h2
        simp only [AMM.address] at h2
        rw [h] at h2
        cases h2
        simp [AMM.sync, ERC4626Vault.sync, AMM.sync_from_storage, h]
      · intro h3
        simp only [AMM.address] at h3
        rw [h] at h3
        exact absurd h3 (by simp)
    | none =>
      refine ⟨?_, ?_, ?_⟩
      · intro e he
        simp [AMM.sync, ERC4626Vault.sync, h]
      · intro slots2 h2
        simp only [AMM.address] at h2
        rw [h] at h2
        exact absurd h2 (by simp)
      · intro h3
        simp [AMM.sync, ERC4626Vault.sync, h]

/-- Witness for C7 at a concrete pool: a failing network handle leaves the
instance untouched, and a successful read replaces the state by the decode
of the returned payload. -/
theorem amm_sync_atomic_witness :
    (AMM.sync (.UniswapV2Pool ⟨1, 2, 3, 4, 5, 30⟩) chainFail).2 =
      .UniswapV2Pool ⟨1, 2, 3, 4, 5, 30⟩ ∧
    (AMM.sync (.UniswapV2Pool ⟨1, 2, 3, 4, 5, 30⟩) chainSlots).2 =
      (AMM.sync_from_storage (.UniswapV2Pool ⟨1, 2, 3, 4, 5, 30⟩) [(8, 77)]).2 := by
  constructor
  · exact (amm_sync_atomic (.UniswapV2Pool ⟨1, 2, 3, 4, 5, 30⟩) chainFail).1
      (.middlewareError 0) rfl
  · exact ((amm_sync_atomic (.UniswapV2Pool ⟨1, 2, 3, 4, 5, 30⟩)
      chainSlots).2.1 [(8, 77)] rfl).2

/-- Reducing twice by the same modulus is the same as reducing once. -/
theorem mod_idem (a n : Nat) : a % n % n = a % n :=
  Nat.mod_mod_of_dvd _ dvd_rfl

/-- Repacking the unpacked halves of a packed reserve word restores the
word. -/
theorem packReserves_unpack (r0 r1 : Nat) :
    packReserves (packReserves r0 r1 % word112)
      (packReserves r0 r1 / word112 % word112) = packReserves r0 r1 := by
  have hn : 0 < word112 := by
    unfold word112
    positivity
  unfold packReserves
  have hmod : (r0 % word112 + r1 % word112 * word112) % word112 = r0 % word112 :=
    (Nat.add_mul_mod_self_right _ _ _).trans (mod_idem _ _)
  have hdiv : (r0 % word112 + r1 % word112 * word112) / word112 = r1 % word112 := by
    rw [Nat.add_mul_div_right _ _ hn, Nat.div_eq_of_lt (Nat.mod_lt _ hn),
      Nat.zero_add]
  rw [hmod, hdiv]
  simp [mod_idem]

/-- C8: re-applying an instance's own exported reserves through
sync_from_storage reproduces an equal reserves export, and the recognized
keys in it are acknowledged with the presence signal. -/
theorem amm_reserves_roundtrip (amm : AMM) :
    AMM.reserves (AMM.sync_from_storage amm (AMM.reserves amm)).2 =
      AMM.reserves amm ∧
    (AMM.sync_from_storage amm (AMM.reserves amm)).1 = some () := by
  cases amm with
  | UniswapV2Pool pool =>
    constructor
    · simp only [AMM.reserves, AMM.sync_from_storage, UniswapV2Pool.reserves,
        UniswapV2Pool.sync_from_storage, UniswapV2Pool.apply_storage_word,
        List.lookup]
      simp [packReserves_unpack]
    · simp [AMM.sync_from_storage, UniswapV2Pool.sync_from_storage,
        UniswapV2Pool.reserves, List.lookup]
  | UniswapV3Pool pool =>
    constructor
    · simp only [AMM.reserves, AMM.sync_from_storage, UniswapV3Pool.reserves,
        UniswapV3Pool.sync_from_storage, List.lookup, v3Slot0, v3LiquiditySlot]
      simp [mod_idem]
    · simp [AMM.sync_from_storage, UniswapV3Pool.sync_from_storage,
        UniswapV3Pool.reserves, List.lookup, v3Slot0, v3LiquiditySlot]
  | ERC4626Vault vault =>
    constructor
    · simp only [AMM.reserves, AMM.sync_from_storage, ERC4626Vault.reserves,
        ERC4626Vault.sync_from_storage, List.lookup, vaultSharesSlot,
        vaultAssetsSlot]
      simp [mod_idem]
    · simp [AMM.sync_from_storage, ERC4626Vault.sync_from_storage,
        ERC4626Vault.reserves, List.lookup, vaultSharesSlot, vaultAssetsSlot]

/-- C9 counterexample: the claim that calculate_price and gradient both
compute and return in arbitrary precision and never hardware floating point
fails on the code: the trait declares calculate_price to return an f64, a
hardware floating-point value. -/
theorem calculate_price_hardware_float_counterexample :
    ¬ (calculate_price_result_repr ≠ NumericRepr.hardwareFloat ∧
       gradient_result_repr ≠ NumericRepr.hardwareFloat) := by
  decide

/-- C9 amended: gradient returns its value in the software big-float type of
num_bigfloat, never hardware floating point, while calculate_price returns a
hardware f64. -/
theorem gradient_soft_price_hardware :
    gradient_result_repr = NumericRepr.softwareBigFloat ∧
    gradient_result_repr ≠ NumericRepr.hardwareFloat ∧
    calculate_price_result_repr = NumericRepr.hardwareFloat := by
  decide
